import Mathlib

/-!
Verification of the Cloudflare Worker proxy in `src/worker/index.js`
(rr-work-dashboard). The worker forwards drag-and-drop status updates to the
Linear GraphQL API. We embed the request-handling logic shallowly:

* JS objects parsed from JSON become Lean structures with `Option` fields
  (`none` models an absent field); JS truthiness on such a field is
  `jsFalsy` (absent or the empty string).
* The two outbound GraphQL calls (`workflowStates` query and `issueUpdate`
  mutation) are abstracted by an `Upstream` oracle describing what the
  external API returns; every call actually issued is recorded in an
  explicit call log, so "no upstream call is attempted" is the log being
  empty.
* Responses are `HttpResponse` with a structured body (`RespBody`) mirroring
  exactly what the worker serializes with `JSON.stringify`.

The per-request global `stateCache` is reset to `null` by `fetch` before
routing (index.js line 209) and `getStateMapping` is invoked at most once
per request, so consulting the oracle directly is a faithful per-request
model of the cache.
-/

/-- One workflow state as returned by the upstream `workflowStates` query
(`id` and `name`, index.js lines 24-28). -/
structure Status where
  id : String
  name : String
deriving Repr, DecidableEq

/-- The `state` projection of the updated issue returned by `issueUpdate`
(index.js lines 71-74). -/
structure IssueState where
  id : String
  name : String
deriving Repr, DecidableEq

/-- The `issue` projection returned by `issueUpdate` (index.js lines 69-75). -/
structure Issue where
  id : String
  state : IssueState
deriving Repr, DecidableEq

/-- The `data.data.issueUpdate` payload: `success` flag and updated issue
(index.js lines 67-76, returned at line 105). -/
structure IssueUpdateResult where
  success : Bool
  issue : Issue
deriving Repr, DecidableEq

/-- Parsed POST /update request body: `const { issueId, targetState,
targetStateId, order } = body` (index.js line 124). `none` models a field
absent from the JSON object. -/
structure UpdateBody where
  issueId : Option String
  targetState : Option String
  targetStateId : Option String
  order : Option (List String)
deriving Repr, DecidableEq

/-- JS truthiness test `!x` for a field that is either absent (`undefined`)
or a string: falsy iff absent or the empty string. -/
def jsFalsy : Option String → Bool
  | none => true
  | some s => s.isEmpty

/-- Outcome of one outbound `fetch` to the Linear GraphQL endpoint, as the
worker distinguishes them: `ok` is a 2xx response whose JSON carries no
`errors` list; `httpError` is a non-2xx transport response (index.js lines
42-44 and 95-97); `gqlErrors` is a 2xx response carrying an application
error list (index.js lines 48-50 and 101-103). -/
inductive QueryOutcome (α : Type) where
  | ok (a : α)
  | httpError (status : Nat)
  | gqlErrors (serialized : String)
deriving Repr, DecidableEq

/-- The external API as an oracle: what the `workflowStates` query returns,
and what the `issueUpdate` mutation returns for given issue id and state id
variables. -/
structure Upstream where
  states : QueryOutcome (List Status)
  update : String → String → QueryOutcome IssueUpdateResult

/-- A record of one outbound call issued by the worker, used to state
"no upstream call is attempted". -/
inductive UpstreamCall where
  | statesQuery
  | issueUpdate (issueId : String) (stateId : String)
deriving Repr, DecidableEq

/-- Structured response body, mirroring exactly what the worker passes to
`JSON.stringify` (or `null` / plain text). -/
inductive RespBody where
  | empty
  | errorMsg (msg : String)
  | updateOk (success : Bool) (issue : Issue)
  | healthOk
  | notFoundText
deriving Repr, DecidableEq

/-- The `success` field of a serialized `/update` success body, if the body
has that shape. -/
def RespBody.successField : RespBody → Option Bool
  | .updateOk s _ => some s
  | _ => none

/-- The `issue` field of a serialized `/update` success body, if the body
has that shape. -/
def RespBody.issueField : RespBody → Option Issue
  | .updateOk _ i => some i
  | _ => none

/-- An HTTP response: status, structured body, headers. -/
structure HttpResponse where
  status : Nat
  body : RespBody
  headers : List (String × String)
deriving Repr, DecidableEq

/-- `corsHeaders` (index.js lines 7-11). -/
def corsHeaders : List (String × String) :=
  [("Access-Control-Allow-Origin", "*"),
   ("Access-Control-Allow-Methods", "GET, POST, OPTIONS"),
   ("Access-Control-Allow-Headers", "Content-Type")]

/-- `{ ...corsHeaders, 'Content-Type': 'application/json' }` as used on every
JSON response. -/
def jsonHeaders : List (String × String) :=
  corsHeaders ++ [("Content-Type", "application/json")]

/-- The index-building loop of `getStateMapping` (index.js lines 52-58):
`stateCache = {}; states.forEach(state => { stateCache[state.name] =
state.id })`, modelled as a function from names to optional ids updated
left to right. -/
def getStateMapping (states : List Status) : String → Option String :=
  states.foldl (fun m st => fun k => if k = st.name then some st.id else m k)
    (fun _ => none)

/-- Spec-side description of the index (§3 StatusIndex, §8.8): a name
resolves to the `id` of whichever matching Status appears last in
enumeration order, or to nothing when no Status carries the name. -/
def lastWriteLookup (states : List Status) (name : String) : Option String :=
  (states.reverse.find? (fun st => st.name = name)).map Status.id

/-- `handleOptions` (index.js lines 111-116): 204, `null` body, bare CORS
headers. -/
def handleOptions : HttpResponse :=
  { status := 204, body := .empty, headers := corsHeaders }

/-- The tail of `handleUpdate` once a state id is in hand (index.js lines
154-173): issue the `issueUpdate` mutation and relay the outcome. A thrown
`Error` is caught by the handler's try/catch (lines 174-183) and becomes a
500 with the error message; on success the worker serializes
`{ success: true, issue: result.issue }` (lines 164-168). `priorCalls` is
the call log accumulated before the mutation. -/
def runUpdate (up : Upstream) (issueId stateId : String)
    (priorCalls : List UpstreamCall) : HttpResponse × List UpstreamCall :=
  let calls := priorCalls ++ [UpstreamCall.issueUpdate issueId stateId]
  match up.update issueId stateId with
  | .httpError s =>
      ({ status := 500, body := .errorMsg ("Linear API error: " ++ toString s),
         headers := jsonHeaders }, calls)
  | .gqlErrors m =>
      ({ status := 500, body := .errorMsg ("Linear GraphQL error: " ++ m),
         headers := jsonHeaders }, calls)
  | .ok result =>
      ({ status := 200, body := .updateOk true result.issue,
         headers := jsonHeaders }, calls)

/-- `handleUpdate` (index.js lines 121-184). The argument `body` is the
outcome of `await request.json()`: `Except.error` models the parse throwing
(caught by the try/catch, line 174). The `apiKey` parameter is carried for
fidelity to the source signature; it only decorates outbound headers, which
the oracle abstracts. Returns the response together with the log of
upstream calls issued. -/
def handleUpdate (apiKey : String) (body : Except String UpdateBody)
    (up : Upstream) : HttpResponse × List UpstreamCall :=
  let _ := apiKey
  match body with
  | .error msg =>
      ({ status := 500, body := .errorMsg msg, headers := jsonHeaders }, [])
  | .ok b =>
    if jsFalsy b.issueId || jsFalsy b.targetState then
      ({ status := 400, body := .errorMsg "Missing issueId or targetState",
         headers := jsonHeaders }, [])
    else
      let issueId := b.issueId.getD ""
      let targetState := b.targetState.getD ""
      if jsFalsy b.targetStateId then
        match up.states with
        | .httpError s =>
            ({ status := 500,
               body := .errorMsg ("Linear API error: " ++ toString s),
               headers := jsonHeaders }, [UpstreamCall.statesQuery])
        | .gqlErrors m =>
            ({ status := 500,
               body := .errorMsg ("Linear GraphQL error: " ++ m),
               headers := jsonHeaders }, [UpstreamCall.statesQuery])
        | .ok states =>
          match getStateMapping states targetState with
          | none =>
              ({ status := 404,
                 body := .errorMsg
                   ("State \"" ++ targetState ++ "\" not found"),
                 headers := jsonHeaders }, [UpstreamCall.statesQuery])
          | some sid =>
            if sid.isEmpty then
              ({ status := 404,
                 body := .errorMsg
                   ("State \"" ++ targetState ++ "\" not found"),
                 headers := jsonHeaders }, [UpstreamCall.statesQuery])
            else
              runUpdate up issueId sid [UpstreamCall.statesQuery]
      else
        runUpdate up issueId (b.targetStateId.getD "") []

/-- An inbound HTTP request as the router sees it: method, URL path, and the
result of parsing the body as JSON when the update handler reads it. -/
structure Request where
  method : String
  path : String
  body : Except String UpdateBody

/-- The worker environment: `env.LINEAR_API_KEY`, absent or a string. -/
structure Env where
  LINEAR_API_KEY : Option String

/-- The exported `fetch` handler (index.js lines 190-234): answer OPTIONS
preflight first, then fail fast on a missing credential, then route by path
and method. Returns the response and the log of upstream calls issued. -/
def workerFetch (req : Request) (env : Env) (up : Upstream) :
    HttpResponse × List UpstreamCall :=
  if req.method = "OPTIONS" then
    (handleOptions, [])
  else if jsFalsy env.LINEAR_API_KEY then
    ({ status := 500, body := .errorMsg "LINEAR_API_KEY not configured",
       headers := jsonHeaders }, [])
  else if req.path = "/update" ∧ req.method = "POST" then
    handleUpdate (env.LINEAR_API_KEY.getD "") req.body up
  else if req.path = "/health" ∧ req.method = "GET" then
    ({ status := 200, body := .healthOk, headers := jsonHeaders }, [])
  else
    ({ status := 404, body := .notFoundText, headers := corsHeaders }, [])

/-! ## Helper lemmas -/

/-- The index-building fold, characterized: looking up `k` after folding the
list over an initial map `m` yields the id of the last Status named `k`, or
falls back to `m k`. -/
theorem getStateMapping_foldl_eq (l : List Status) (m : String → Option String)
    (k : String) :
    (l.foldl (fun m st => fun k' => if k' = st.name then some st.id else m k') m) k
      = (l.reverse.find? (fun st => st.name = k)).elim (m k) (fun st => some st.id) := by
  induction l generalizing m with
  | nil => simp
  | cons st rest ih =>
      rw [List.foldl_cons, ih, List.reverse_cons, List.find?_append]
      cases hfind : rest.reverse.find? (fun st => st.name = k) with
      | some x => simp [hfind]
      | none =>
          by_cases hname : st.name = k
          · simp [hfind, hname, Option.elim]
          · have hk : ¬ (k = st.name) := fun h => hname h.symm
            simp [hfind, hname, hk, Option.elim]

/-- `getStateMapping` agrees pointwise with the spec-side last-write-wins
lookup. -/
theorem getStateMapping_eq_lastWrite (states : List Status) (name : String) :
    getStateMapping states name = lastWriteLookup states name := by
  rw [getStateMapping, getStateMapping_foldl_eq, lastWriteLookup]
  cases hfind : states.reverse.find? (fun st => st.name = name) <;> simp [hfind]

/-- If no Status in the list is named `t`, the built index resolves `t` to
nothing. -/
theorem getStateMapping_eq_none (states : List Status) (t : String)
    (h : ∀ st ∈ states, st.name ≠ t) : getStateMapping states t = none := by
  rw [getStateMapping_eq_lastWrite, lastWriteLookup]
  have : states.reverse.find? (fun st => st.name = t) = none := by
    rw [List.find?_eq_none]
    intro st hst
    simp [h st (List.mem_reverse.mp hst)]
  simp [this]

/-- The call log of `runUpdate` is the prior log extended with exactly the
one mutation call, in every outcome. -/
theorem runUpdate_calls (up : Upstream) (issueId stateId : String)
    (prior : List UpstreamCall) :
    (runUpdate up issueId stateId prior).2
      = prior ++ [UpstreamCall.issueUpdate issueId stateId] := by
  rw [runUpdate]
  cases up.update issueId stateId <;> rfl

/-- When the mutation outcome is `ok r`, `runUpdate` responds 200 with
`success` hardcoded to `true` and `r.issue` relayed verbatim. -/
theorem runUpdate_ok_response (up : Upstream) (issueId stateId : String)
    (prior : List UpstreamCall) (r : IssueUpdateResult)
    (hr : up.update issueId stateId = .ok r) :
    (runUpdate up issueId stateId prior).1
      = { status := 200, body := .updateOk true r.issue, headers := jsonHeaders } := by
  rw [runUpdate, hr]

/-! ## Concrete fixtures used by counterexamples and witnesses -/

/-- A demo issue as the upstream might return it. -/
def demoIssue : Issue := { id := "ISS-1", state := { id := "state-1", name := "Done" } }

/-- A demo upstream: one workflow state, and a mutation that always succeeds
with `success := true`. -/
def demoUpstream : Upstream :=
  { states := .ok [{ id := "state-1", name := "Done" }],
    update := fun i s =>
      .ok { success := true, issue := { id := i, state := { id := s, name := "Done" } } } }

/-- A demo upstream whose mutation reports `success := false` while carrying
no transport or GraphQL error. -/
def demoUpstreamFalse : Upstream :=
  { states := .ok [{ id := "state-1", name := "Done" }],
    update := fun _ _ => .ok { success := false, issue := demoIssue } }

/-- A fully-populated valid body naming the demo state. -/
def demoBody : UpdateBody :=
  { issueId := some "ISS-1", targetState := some "Done",
    targetStateId := none, order := none }

/-- A body that omits `issueId` while every other field is populated. -/
def bodyNoIssueId : UpdateBody :=
  { issueId := none, targetState := some "Done",
    targetStateId := some "state-1", order := some ["a", "b"] }

/-! ## Claims -/

/-- Claim C4: if the parsed body omits `issueId` or omits `targetState`, the
response is 400 with the fixed error message, whatever the other fields
hold, and the upstream call log is empty. -/
theorem c4_missing_field_gives_400 (apiKey : String) (b : UpdateBody)
    (up : Upstream) (h : b.issueId = none ∨ b.targetState = none) :
    handleUpdate apiKey (.ok b) up =
      ({ status := 400, body := .errorMsg "Missing issueId or targetState",
         headers := jsonHeaders }, []) := by
  rcases h with h | h <;> simp [handleUpdate, h, jsFalsy]

/-- Witness for C4 at a concrete body omitting `issueId`. -/
theorem c4_missing_field_gives_400_witness :
    handleUpdate "key" (.ok bodyNoIssueId) demoUpstream =
      ({ status := 400, body := .errorMsg "Missing issueId or targetState",
         headers := jsonHeaders }, []) :=
  c4_missing_field_gives_400 "key" bodyNoIssueId demoUpstream (Or.inl rfl)

/-- Claim C5: with the credential absent from the environment, every
non-OPTIONS request gets a 500 carrying the configuration-error message,
and no upstream call is made. -/
theorem c5_no_credential_gives_500 (req : Request) (env : Env) (up : Upstream)
    (hm : req.method ≠ "OPTIONS") (hk : env.LINEAR_API_KEY = none) :
    workerFetch req env up =
      ({ status := 500, body := .errorMsg "LINEAR_API_KEY not configured",
         headers := jsonHeaders }, []) := by
  simp [workerFetch, hm, hk, jsFalsy]

/-- Witness for C5 at a concrete GET /health request with no credential. -/
theorem c5_no_credential_gives_500_witness :
    workerFetch { method := "GET", path := "/health", body := .error "no body" }
        { LINEAR_API_KEY := none } demoUpstream =
      ({ status := 500, body := .errorMsg "LINEAR_API_KEY not configured",
         headers := jsonHeaders }, []) :=
  c5_no_credential_gives_500 _ _ demoUpstream (by decide) rfl

/-- Claim C7: every OPTIONS request — any path, any environment, credential
configured or not — gets 204 with an empty body and the bare CORS headers,
and no upstream call is made. -/
theorem c7_options_preflight (req : Request) (env : Env) (up : Upstream)
    (hm : req.method = "OPTIONS") :
    workerFetch req env up =
      ({ status := 204, body := .empty, headers := corsHeaders }, []) := by
  simp [workerFetch, hm, handleOptions]

/-- Witness for C7 at a concrete OPTIONS request on an unrouted path with no
credential configured. -/
theorem c7_options_preflight_witness :
    workerFetch { method := "OPTIONS", path := "/whatever", body := .error "" }
        { LINEAR_API_KEY := none } demoUpstream =
      ({ status := 204, body := .empty, headers := corsHeaders }, []) :=
  c7_options_preflight _ _ demoUpstream rfl

/-- Claim C8: the built name-to-id index agrees pointwise with the
last-write-wins description: a name (in particular a duplicated one) maps to
the id of the Status appearing last in enumeration order. Determinism is
immediate: `getStateMapping` is a pure function of the input list. -/
theorem c8_last_write_wins (states : List Status) (name : String) :
    getStateMapping states name = lastWriteLookup states name :=
  getStateMapping_eq_lastWrite states name

/-- Claim C9: the handler's outcome — status, body, and upstream call log —
does not depend on the `order` field: supplying any `order` gives exactly
the result of the same body without it. -/
theorem c9_order_is_ignored (apiKey : String) (b : UpdateBody) (up : Upstream)
    (o : Option (List String)) :
    handleUpdate apiKey (.ok { b with order := o }) up =
      handleUpdate apiKey (.ok { b with order := none }) up := by
  cases b
  rfl

/-- Claim C2, counterexample: the claim says GET /health answers 200
regardless of credential configuration, but with the credential absent the
router's fail-fast check answers 500 before routing reaches /health. -/
theorem c2_counterexample :
    (workerFetch { method := "GET", path := "/health", body := .error "no body" }
        { LINEAR_API_KEY := none } demoUpstream).1.status = 500 ∧
    (workerFetch { method := "GET", path := "/health", body := .error "no body" }
        { LINEAR_API_KEY := none } demoUpstream).1.status ≠ 200 :=
  ⟨rfl, by decide⟩

/-- Claim C2 as amended: GET /health returns 200 `{status: "ok"}` whenever
the credential check passes (credential present and non-empty); with the
credential absent the request instead receives the 500 configuration
error. Either way no upstream call is made. -/
theorem c2_amended_health_ok (env : Env) (body : Except String UpdateBody)
    (up : Upstream) (hk : jsFalsy env.LINEAR_API_KEY = false) :
    workerFetch { method := "GET", path := "/health", body := body } env up =
      ({ status := 200, body := .healthOk, headers := jsonHeaders }, []) := by
  simp [workerFetch, hk]

/-- Witness for the amended C2 at a concrete environment holding a key. -/
theorem c2_amended_health_ok_witness :
    workerFetch { method := "GET", path := "/health", body := .error "no body" }
        { LINEAR_API_KEY := some "key" } demoUpstream =
      ({ status := 200, body := .healthOk, headers := jsonHeaders }, []) :=
  c2_amended_health_ok { LINEAR_API_KEY := some "key" } _ demoUpstream rfl

/-- A string's `isEmpty` is `false` exactly when the string is non-empty. -/
theorem isEmpty_false_iff (s : String) : s.isEmpty = false ↔ s ≠ "" := by
  rw [Bool.eq_false_iff, Ne, Ne]
  exact not_congr (String.isEmpty_iff s)

/-- If the prior log holds no mutation call, a mutation call found in
`runUpdate`'s log is the one `runUpdate` itself issued; when its outcome is
`ok r` the response is the 200 success response. -/
theorem runUpdate_mem_response (up : Upstream) (issueId stateId : String)
    (prior : List UpstreamCall) (i s : String) (r : IssueUpdateResult)
    (hprior : ∀ i' s', UpstreamCall.issueUpdate i' s' ∉ prior)
    (hc : UpstreamCall.issueUpdate i s ∈ (runUpdate up issueId stateId prior).2)
    (hr : up.update i s = .ok r) :
    (runUpdate up issueId stateId prior).1 =
      { status := 200, body := .updateOk true r.issue, headers := jsonHeaders } := by
  rw [runUpdate_calls] at hc
  rcases List.mem_append.mp hc with h | h
  · exact absurd h (hprior i s)
  · simp only [List.mem_singleton, UpstreamCall.issueUpdate.injEq] at h
    obtain ⟨hi, hs⟩ := h
    subst hi
    subst hs
    exact runUpdate_ok_response up _ _ prior r hr

/-- Claim C1, counterexample: the upstream mutation reports
`success := false` with no error, yet the worker's response says
`success := true` — the returned flag is the constant `true`, not the
upstream-reported boolean. -/
theorem c1_counterexample :
    (handleUpdate "key" (.ok demoBody) demoUpstreamFalse).1.status = 200 ∧
    ((handleUpdate "key" (.ok demoBody) demoUpstreamFalse).1.body).successField
      = some true ∧
    demoUpstreamFalse.update "ISS-1" "state-1"
      = .ok { success := false, issue := demoIssue } ∧
    (some true : Option Bool) ≠ some false :=
  ⟨rfl, rfl, rfl, by decide⟩

/-- Claim C1 as amended: whenever the mutation call is actually issued (it
appears in the call log) and its upstream outcome is `ok r`, the response is
200 carrying `r.issue` verbatim — but with the `success` field hardcoded to
`true`, irrespective of the upstream-reported `r.success`. -/
theorem c1_amended_issue_verbatim_success_constant (apiKey : String)
    (b : UpdateBody) (up : Upstream) (i s : String) (r : IssueUpdateResult)
    (hc : UpstreamCall.issueUpdate i s ∈ (handleUpdate apiKey (.ok b) up).2)
    (hr : up.update i s = .ok r) :
    (handleUpdate apiKey (.ok b) up).1 =
      { status := 200, body := .updateOk true r.issue,
        headers := jsonHeaders } := by
  by_cases h1 : (jsFalsy b.issueId || jsFalsy b.targetState) = true
  · simp [handleUpdate, h1] at hc
  · by_cases h2 : jsFalsy b.targetStateId = true
    · cases hst : up.states with
      | httpError st => simp [handleUpdate, h1, h2, hst] at hc
      | gqlErrors m => simp [handleUpdate, h1, h2, hst] at hc
      | ok states =>
          cases hmap : getStateMapping states (b.targetState.getD "") with
          | none => simp [handleUpdate, h1, h2, hst, hmap] at hc
          | some sid =>
              by_cases hsid : sid.isEmpty = true
              · simp [handleUpdate, h1, h2, hst, hmap, hsid] at hc
              · have heq : handleUpdate apiKey (.ok b) up =
                    runUpdate up (b.issueId.getD "") sid
                      [UpstreamCall.statesQuery] := by
                  simp [handleUpdate, h1, h2, hst, hmap, hsid]
                rw [heq] at hc ⊢
                exact runUpdate_mem_response up _ sid _ i s r
                  (by simp) hc hr
    · have heq : handleUpdate apiKey (.ok b) up =
          runUpdate up (b.issueId.getD "") (b.targetStateId.getD "") [] := by
        simp [handleUpdate, h1, h2]
      rw [heq] at hc ⊢
      exact runUpdate_mem_response up _ _ _ i s r (by simp) hc hr

/-- Witness for the amended C1: the mutation was issued and came back `ok`
with `success := false`, and the response still carries `success := true`
together with the upstream issue verbatim. -/
theorem c1_amended_witness :
    (handleUpdate "key" (.ok demoBody) demoUpstreamFalse).1 =
      { status := 200, body := .updateOk true demoIssue,
        headers := jsonHeaders } :=
  c1_amended_issue_verbatim_success_constant "key" demoBody demoUpstreamFalse
    "ISS-1" "state-1" { success := false, issue := demoIssue }
    (by decide) rfl

/-- A body supplying a non-empty `issueId` and a non-empty `targetStateId`
while omitting `targetState`. -/
def bodyNoTargetState : UpdateBody :=
  { issueId := some "ISS-1", targetState := none,
    targetStateId := some "state-1", order := none }

/-- A body supplying all three of `issueId`, `targetState` and a (different)
`targetStateId`. -/
def bodyDirectId : UpdateBody :=
  { issueId := some "ISS-1", targetState := some "Done",
    targetStateId := some "state-9", order := none }

/-- Claim C3, counterexample: a body with non-empty `issueId` and non-empty
`targetStateId` but no `targetState` IS rejected with a 400 validation
error, and no upstream call is made — the validation requires `targetState`
unconditionally. -/
theorem c3_counterexample :
    (handleUpdate "key" (.ok bodyNoTargetState) demoUpstream).1.status = 400 ∧
    (handleUpdate "key" (.ok bodyNoTargetState) demoUpstream).2 = [] :=
  ⟨rfl, rfl⟩

/-- Claim C3 as amended: `targetState` is required unconditionally — a body
omitting it is rejected with 400 and no upstream call even when a non-empty
`targetStateId` is supplied; when `issueId`, `targetState` and
`targetStateId` are all supplied non-empty, the supplied `targetStateId` is
used directly for the mutation with no status-list query. -/
theorem c3_amended_targetState_required (apiKey : String) (b : UpdateBody)
    (up : Upstream) :
    (b.targetState = none →
      handleUpdate apiKey (.ok b) up =
        ({ status := 400, body := .errorMsg "Missing issueId or targetState",
           headers := jsonHeaders }, [])) ∧
    (∀ i t sid, b.issueId = some i → i ≠ "" → b.targetState = some t →
      t ≠ "" → b.targetStateId = some sid → sid ≠ "" →
      handleUpdate apiKey (.ok b) up = runUpdate up i sid []) := by
  constructor
  · intro h
    simp [handleUpdate, h, jsFalsy]
  · intro i t sid hi hine ht htne hsid hsidne
    have hi' : jsFalsy (some i) = false := (isEmpty_false_iff i).mpr hine
    have ht' : jsFalsy (some t) = false := (isEmpty_false_iff t).mpr htne
    have hsid' : jsFalsy (some sid) = false := (isEmpty_false_iff sid).mpr hsidne
    simp [handleUpdate, hi, ht, hsid, hi', ht', hsid']

/-- Witness for the amended C3: part one at a body omitting `targetState`,
part two at a body carrying all three fields. -/
theorem c3_amended_targetState_required_witness :
    handleUpdate "key" (.ok bodyNoTargetState) demoUpstream =
      ({ status := 400, body := .errorMsg "Missing issueId or targetState",
         headers := jsonHeaders }, []) ∧
    handleUpdate "key" (.ok bodyDirectId) demoUpstream =
      runUpdate demoUpstream "ISS-1" "state-9" [] :=
  ⟨(c3_amended_targetState_required "key" bodyNoTargetState demoUpstream).1 rfl,
   (c3_amended_targetState_required "key" bodyDirectId demoUpstream).2
     "ISS-1" "Done" "state-9" rfl (by decide) rfl (by decide) rfl (by decide)⟩

/-- Claim C6: with a truthy `issueId`, a non-empty `targetState` matching no
status name in the fetched list, and `targetStateId` absent-or-empty, the
response is 404 and the call log holds exactly the status-list query — no
mutation call is issued. -/
theorem c6_unknown_state_gives_404 (apiKey : String) (b : UpdateBody)
    (up : Upstream) (states : List Status) (t : String)
    (h1 : jsFalsy b.issueId = false)
    (h2 : b.targetState = some t) (h3 : t ≠ "")
    (h4 : jsFalsy b.targetStateId = true)
    (h5 : up.states = .ok states)
    (h6 : ∀ st ∈ states, st.name ≠ t) :
    handleUpdate apiKey (.ok b) up =
      ({ status := 404,
         body := .errorMsg ("State \"" ++ t ++ "\" not found"),
         headers := jsonHeaders }, [UpstreamCall.statesQuery]) := by
  have ht : jsFalsy (some t) = false := (isEmpty_false_iff t).mpr h3
  have hmap : getStateMapping states t = none :=
    getStateMapping_eq_none states t h6
  simp [handleUpdate, h1, ht, h2, h4, h5, hmap]

/-- A body naming a state the demo upstream does not know. -/
def bodyUnknownState : UpdateBody :=
  { issueId := some "ISS-1", targetState := some "Archived",
    targetStateId := none, order := none }

/-- Witness for C6 at a concrete body naming an unknown state. -/
theorem c6_unknown_state_gives_404_witness :
    handleUpdate "key" (.ok bodyUnknownState) demoUpstream =
      ({ status := 404,
         body := .errorMsg ("State \"" ++ "Archived" ++ "\" not found"),
         headers := jsonHeaders }, [UpstreamCall.statesQuery]) :=
  c6_unknown_state_gives_404 "key" bodyUnknownState demoUpstream
    [{ id := "state-1", name := "Done" }] "Archived"
    rfl rfl (by decide) rfl rfl (by decide)

/-- In the name-resolution path (truthy `issueId` and `targetState`, falsy
`targetStateId`), the call log is either just the status-list query, or the
status-list query followed by one mutation carrying a non-empty resolved
state id. -/
theorem handleUpdate_resolution_calls (apiKey : String) (b : UpdateBody)
    (up : Upstream)
    (h1 : jsFalsy b.issueId = false) (h2 : jsFalsy b.targetState = false)
    (h3 : jsFalsy b.targetStateId = true) :
    (handleUpdate apiKey (.ok b) up).2 = [UpstreamCall.statesQuery] ∨
    (∃ sid, sid.isEmpty = false ∧
      (handleUpdate apiKey (.ok b) up).2 =
        [UpstreamCall.statesQuery,
         UpstreamCall.issueUpdate (b.issueId.getD "") sid]) := by
  cases hst : up.states with
  | httpError s => left; simp [handleUpdate, h1, h2, h3, hst]
  | gqlErrors m => left; simp [handleUpdate, h1, h2, h3, hst]
  | ok states =>
      cases hmap : getStateMapping states (b.targetState.getD "") with
      | none => left; simp [handleUpdate, h1, h2, h3, hst, hmap]
      | some sid =>
          by_cases hsid : sid.isEmpty = true
          · left; simp [handleUpdate, h1, h2, h3, hst, hmap, hsid]
          · right
            refine ⟨sid, Bool.eq_false_iff.mpr hsid, ?_⟩
            have heq : handleUpdate apiKey (.ok b) up =
                runUpdate up (b.issueId.getD "") sid
                  [UpstreamCall.statesQuery] := by
              simp [handleUpdate, h1, h2, h3, hst, hmap, hsid]
            rw [heq, runUpdate_calls]
            rfl

/-- Claim C10: with truthy `issueId` and `targetState`, a `targetStateId`
equal to the empty string is treated exactly as an absent one — the handler
behaves identically to the same body without the field, the status-list
query is issued, and any mutation call carries a non-empty state id (never
the empty string). -/
theorem c10_empty_targetStateId_treated_absent (apiKey : String)
    (b : UpdateBody) (up : Upstream)
    (h1 : jsFalsy b.issueId = false) (h2 : jsFalsy b.targetState = false)
    (h3 : b.targetStateId = some "") :
    handleUpdate apiKey (.ok b) up =
      handleUpdate apiKey (.ok { b with targetStateId := none }) up ∧
    UpstreamCall.statesQuery ∈ (handleUpdate apiKey (.ok b) up).2 ∧
    ∀ i s, UpstreamCall.issueUpdate i s ∈ (handleUpdate apiKey (.ok b) up).2 →
      s ≠ "" := by
  have h3' : jsFalsy b.targetStateId = true := by rw [h3]; rfl
  refine ⟨?_, ?_, ?_⟩
  · have hE : jsFalsy (some "") = true := rfl
    have hN : jsFalsy (none : Option String) = true := rfl
    simp [handleUpdate, h3, hE, hN]
  · rcases handleUpdate_resolution_calls apiKey b up h1 h2 h3' with h | ⟨sid, _, h⟩ <;>
      simp [h]
  · intro i s hmem
    rcases handleUpdate_resolution_calls apiKey b up h1 h2 h3' with
      h | ⟨sid, hsid, h⟩
    · rw [h] at hmem
      simp at hmem
    · rw [h] at hmem
      simp at hmem
      rw [hmem.2]
      exact (isEmpty_false_iff sid).mp hsid

/-- A body whose `targetStateId` field is present but the empty string. -/
def bodyEmptyStateId : UpdateBody :=
  { issueId := some "ISS-1", targetState := some "Done",
    targetStateId := some "", order := none }

/-- Witness for C10 at a concrete body carrying an empty `targetStateId`. -/
theorem c10_empty_targetStateId_treated_absent_witness :
    (handleUpdate "key" (.ok bodyEmptyStateId) demoUpstream =
      handleUpdate "key" (.ok { bodyEmptyStateId with targetStateId := none })
        demoUpstream) ∧
    UpstreamCall.statesQuery ∈
      (handleUpdate "key" (.ok bodyEmptyStateId) demoUpstream).2 ∧
    ∀ i s, UpstreamCall.issueUpdate i s ∈
        (handleUpdate "key" (.ok bodyEmptyStateId) demoUpstream).2 → s ≠ "" :=
  c10_empty_targetStateId_treated_absent "key" bodyEmptyStateId demoUpstream
    rfl rfl rfl
